import Mathlib

/-
Verification of the drone web client session logic.

The model below is a shallow embedding of the browser-side session code:
`static/script.js` (its final revision, the one holding the connectivity
guard on command dispatch, the visibility and resize handlers, and the
unload teardown) and
`Drone Web App/src/api consumption/drone-control.js`.
Each DOM or socket event handler becomes a function from the client state
to a new state paired with the list of messages pushed to the transport
or the HTTP layer during the handling.  Wall-clock timestamps that the
code only interpolates into rendered log text are abstracted away; log
entries are identified by their message text.
-/

namespace Drone

/-- Messages the client pushes outward while handling an event:
the zero-payload video intents, a drone command with optional distance,
the GET of the telemetry endpoint, and the socket disconnect call. -/
inductive Out where
  | startVideo
  | stopVideo
  | droneCommand (command : String) (distance : Option Nat)
  | statusRequest
  | closeConnection
deriving DecidableEq

/-- The trimming loop of addLog: while the container holds more than 100
entries, remove the first (oldest) one. -/
def trimLog : List String → List String
  | [] => []
  | x :: xs => if (x :: xs).length > 100 then trimLog xs else x :: xs

/-- script.js addLog: append the new entry at the end, then trim the
container down to the last 100 entries. -/
def addLog (log : List String) (message : String) : List String :=
  trimLog (log ++ [message])

/-- The telemetry fields rendered by updateStatusDisplay, together with
the battery color indicator. -/
structure StatusDisplay where
  battery : String
  height : String
  temperature : String
  flightTime : String
  isFlying : String
  wifiStrength : String
  batteryColor : String
deriving DecidableEq

/-- A parsed /status response body. -/
structure StatusData where
  battery : Int
  height : Int
  temperature : Int
  flightTime : Int
  isFlying : Bool
  wifiStrength : Int
deriving DecidableEq

/-- State of the script.js client: socket connectivity, the video flag and
the rendered frame, the toggle button label, the connection status text,
the log container, the liveness of the periodic status timer, and the two
resize timers (debounce and delayed restart). -/
structure ClientState where
  socketConnected : Bool
  isVideoActive : Bool
  btnText : String
  videoSrc : String
  connStatusText : String
  log : List String
  statusTimerRunning : Bool
  pendingResizeDebounce : Bool
  pendingResizeRestart : Bool
  display : StatusDisplay
deriving DecidableEq

/-- Battery color thresholds used by updateStatusDisplay. -/
def batteryColor (batteryLevel : Int) : String :=
  if batteryLevel ≤ 20 then "#dc2626"
  else if batteryLevel ≤ 50 then "#f59e0b"
  else "#16a34a"

/-- script.js updateStatusDisplay: write each telemetry field into its
element and color the battery indicator. -/
def updateStatusDisplay (s : ClientState) (data : StatusData) : ClientState :=
  { s with display :=
      { battery := toString data.battery
        height := toString data.height
        temperature := toString data.temperature
        flightTime := toString data.flightTime
        isFlying := if data.isFlying then "Flying" else "Landed"
        wifiStrength := toString data.wifiStrength
        batteryColor := batteryColor data.battery } }

/-- Outcome of one fetch of /status: a parsed ok response, a non-ok HTTP
response carrying the thrown error message, or a network failure. -/
inductive FetchResult where
  | ok (data : StatusData)
  | httpError (errMsg : String)
  | networkError (errMsg : String)
deriving DecidableEq

/-- script.js fetchStatus: issue the /status request; on an ok response
update the display and log success, otherwise log the error and mark the
connection status as Error. -/
def fetchStatus (s : ClientState) (r : FetchResult) : ClientState × List Out :=
  match r with
  | .ok data =>
      ({ updateStatusDisplay s data with
           log := addLog s.log "Status updated successfully" }, [Out.statusRequest])
  | .httpError e =>
      ({ s with log := addLog s.log ("Error fetching status: " ++ e)
                connStatusText := "Error" }, [Out.statusRequest])
  | .networkError e =>
      ({ s with log := addLog s.log ("Error fetching status: " ++ e)
                connStatusText := "Error" }, [Out.statusRequest])

/-- One tick of the periodic schedule installed by setInterval on
statusTimer: when the timer is live the tick runs fetchStatus, a cleared
timer produces no tick work at all. -/
def statusTick (s : ClientState) (r : FetchResult) : ClientState × List Out :=
  if s.statusTimerRunning then fetchStatus s r else (s, [])

/-- The socket connect handler: status text, log entry; the socket is now
connected. -/
def onConnect (s : ClientState) : ClientState × List Out :=
  ({ s with socketConnected := true
            connStatusText := "Connected"
            log := addLog s.log "Connected to drone control system" }, [])

/-- The socket disconnect handler: status text, log entry, and the video
state reset (flag off, frame cleared, button back to Start Video). -/
def onDisconnect (s : ClientState) : ClientState × List Out :=
  ({ s with socketConnected := false
            connStatusText := "Disconnected"
            log := addLog s.log "Disconnected from drone control system"
            isVideoActive := false
            videoSrc := ""
            btnText := "Start Video" }, [])

/-- The video frame handler: render the pushed frame only while the video
flag is on, otherwise ignore it entirely. -/
def onVideoFrame (s : ClientState) (frame : String) : ClientState × List Out :=
  if s.isVideoActive then
    ({ s with videoSrc := "data:image/jpeg;base64," ++ frame }, [])
  else (s, [])

/-- The toggle button click handler: flip the flag; on the on-edge emit
start and relabel the button, on the off-edge emit stop, relabel, and
clear the frame. -/
def toggleVideo (s : ClientState) : ClientState × List Out :=
  let active := !s.isVideoActive
  if active then
    ({ s with isVideoActive := active
              btnText := "Stop Video"
              log := addLog s.log "Starting video stream" }, [Out.startVideo])
  else
    ({ s with isVideoActive := active
              btnText := "Start Video"
              videoSrc := ""
              log := addLog s.log "Stopping video stream" }, [Out.stopVideo])

/-- script.js sendCommand: reject with a log entry when the socket is not
connected, otherwise emit the command and log it. -/
def sendCommand (s : ClientState) (command : String) : ClientState × List Out :=
  if !s.socketConnected then
    ({ s with log := addLog s.log "Error: Not connected to drone" }, [])
  else
    ({ s with log := addLog s.log ("Sending command: " ++ command) },
     [Out.droneCommand command none])

/-- script.js sendMoveCommand: same connectivity guard, then emit the
directional command with its distance. -/
def sendMoveCommand (s : ClientState) (direction : String) (distance : Nat) :
    ClientState × List Out :=
  if !s.socketConnected then
    ({ s with log := addLog s.log "Error: Not connected to drone" }, [])
  else
    let msg := "Sending movement command: " ++ direction ++ " " ++ toString distance ++ "cm"
    ({ s with log := addLog s.log msg },
     [Out.droneCommand direction (some distance)])

/-- Dispatching a list of commands in order, accumulating every emitted
message. -/
def runCommands : ClientState → List String → ClientState × List Out
  | s, [] => (s, [])
  | s, c :: cs =>
      let p := sendCommand s c
      let q := runCommands p.1 cs
      (q.1, p.2 ++ q.2)

/-- The visibilitychange handler, hidden branch: if the video flag is on,
turn it off, emit one stop, clear the frame and relabel the button; in
every case cancel the status timer. -/
def onHidden (s : ClientState) : ClientState × List Out :=
  if s.isVideoActive then
    ({ s with isVideoActive := false
              videoSrc := ""
              btnText := "Start Video"
              statusTimerRunning := false }, [Out.stopVideo])
  else
    ({ s with statusTimerRunning := false }, [])

/-- The visibilitychange handler, visible branch: run one immediate
fetchStatus and install a fresh periodic timer. -/
def onVisible (s : ClientState) (r : FetchResult) : ClientState × List Out :=
  let p := fetchStatus s r
  ({ p.1 with statusTimerRunning := true }, p.2)

/-- The unload handler: emit stop if the video flag is on, clear the
status interval, then disconnect the socket.  The resize timers are not
touched. -/
def onUnload (s : ClientState) : ClientState × List Out :=
  ({ s with statusTimerRunning := false
            socketConnected := false },
   (if s.isVideoActive then [Out.stopVideo] else []) ++ [Out.closeConnection])

/-- The resize listener body: clearTimeout on the stored handle followed
by a fresh setTimeout leaves exactly one pending debounce callback. -/
def onResize (s : ClientState) : ClientState × List Out :=
  ({ s with pendingResizeDebounce := true }, [])

/-- The 250 ms debounce callback: if the video flag is on, clear the frame
and schedule the 100 ms restart callback; otherwise do nothing. -/
def fireResizeDebounce (s : ClientState) : ClientState × List Out :=
  if s.isVideoActive then
    ({ s with pendingResizeDebounce := false
              videoSrc := ""
              pendingResizeRestart := true }, [])
  else
    ({ s with pendingResizeDebounce := false }, [])

/-- The 100 ms restart callback: re-emit start only if the video flag is
still on. -/
def fireResizeRestart (s : ClientState) : ClientState × List Out :=
  if s.isVideoActive then
    ({ s with pendingResizeRestart := false }, [Out.startVideo])
  else
    ({ s with pendingResizeRestart := false }, [])

/-- How many debounce callbacks actually run for resize events at the
given ascending times: the callback armed at time t is cancelled by the
clearTimeout of the next event iff that event arrives before t + 250. -/
def firedDebounces : List Nat → Nat
  | [] => 0
  | [_] => 1
  | a :: b :: rest => (if b < a + 250 then 0 else 1) + firedDebounces (b :: rest)

/-- The event times form one burst: ascending, with every consecutive gap
under 250 ms. -/
def tightBurst : List Nat → Bool
  | a :: b :: rest => (a ≤ b && b < a + 250) && tightBurst (b :: rest)
  | _ => true

/-- State of the drone-control.js client: connectivity and streaming
flags, the logger entries (message, severity), the video element source,
the connection status element, the stream buttons, the FPS counter
internals, and the telemetry display elements. -/
structure DCState where
  isConnected : Bool
  isStreaming : Bool
  log : List (String × String)
  videoFeedSrc : String
  connectionStatusText : String
  connectionStatusColor : String
  startBtnDisabled : Bool
  stopBtnDisabled : Bool
  frameCount : Nat
  lastFrameTime : Nat
  fpsText : String
  batteryText : String
  signalText : String
  heightText : String
  tempText : String
deriving DecidableEq

/-- Modelled from the spec: droneLogger, the Log Recorder used by
drone-control.js, is not part of this repository.  Per the spec its
append inserts the (message, severity) entry and evicts the single
oldest entry when the 100-capacity ring is full. -/
def dcAddLog (log : List (String × String)) (message severity : String) :
    List (String × String) :=
  let l := log ++ [(message, severity)]
  l.drop (l.length - 100)

/-- Outcome of the POST of a drone command: an ok response, or the error
message thrown for a non-ok response or a network failure. -/
inductive DCResponse where
  | ok
  | err (errMsg : String)
deriving DecidableEq

/-- drone-control.js sendDroneCommand: reject with a warning log entry
when not connected; otherwise POST the command and log the outcome. -/
def sendDroneCommand (s : DCState) (command : String) (r : DCResponse) :
    DCState × List Out :=
  if !s.isConnected then
    ({ s with log := dcAddLog s.log "Cannot send command: Drone not connected" "warning" }, [])
  else
    match r with
    | .ok =>
        ({ s with log := dcAddLog s.log ("Command executed: " ++ command) "success" },
         [Out.droneCommand command none])
    | .err e =>
        ({ s with log := dcAddLog s.log ("Command error: " ++ e) "danger" },
         [Out.droneCommand command none])

/-- drone-control.js updateStreamControls. -/
def updateStreamControls (s : DCState) (streaming : Bool) : DCState :=
  { s with startBtnDisabled := streaming, stopBtnDisabled := !streaming }

/-- drone-control.js startVideoStream: reject with a warning log entry
when not connected; otherwise emit start, set the streaming flag, flip
the buttons and log success. -/
def startVideoStream (s : DCState) : DCState × List Out :=
  if !s.isConnected then
    ({ s with log := dcAddLog s.log "Cannot start stream: Drone not connected" "warning" }, [])
  else
    let s1 := updateStreamControls { s with isStreaming := true } true
    ({ s1 with log := dcAddLog s1.log "Video stream started" "success" }, [Out.startVideo])

/-- drone-control.js stopVideoStream: emit stop, clear the streaming flag
and the frame, flip the buttons and log. -/
def stopVideoStream (s : DCState) : DCState × List Out :=
  let s1 := updateStreamControls { s with isStreaming := false } false
  ({ s1 with videoFeedSrc := ""
             log := dcAddLog s1.log "Video stream stopped" "info" }, [Out.stopVideo])

/-- drone-control.js updateFPSCounter: count the frame and, once a second
has passed, publish the count and reset it. -/
def updateFPSCounter (s : DCState) (now : Nat) : DCState :=
  let s1 := { s with frameCount := s.frameCount + 1 }
  if 1000 ≤ now - s1.lastFrameTime then
    { s1 with fpsText := toString s1.frameCount ++ " FPS"
              frameCount := 0
              lastFrameTime := now }
  else s1

/-- drone-control.js video frame handler: render the frame and update the
FPS counter only while streaming and the frame payload is non-empty. -/
def dcVideoFrame (s : DCState) (frame : String) (now : Nat) : DCState × List Out :=
  if s.isStreaming && frame != "" then
    (updateFPSCounter { s with videoFeedSrc := "data:image/jpeg;base64," ++ frame } now, [])
  else (s, [])

/-- Outcome of one fetch of /status in drone-control.js. -/
inductive DCTelemetryResult where
  | ok (data : StatusData)
  | httpError
  | networkError
deriving DecidableEq

/-- drone-control.js checkCriticalStatus: warning log entries for low
battery, high altitude and weak signal. -/
def checkCriticalStatus (s : DCState) (data : StatusData) : DCState :=
  let s1 :=
    if data.battery ≤ 20 then
      { s with log := dcAddLog s.log ("Low battery warning: " ++ toString data.battery ++ "%") "warning" }
    else s
  let s2 :=
    if data.height > 100 then
      { s1 with log := dcAddLog s1.log ("High altitude warning: " ++ toString data.height ++ "m") "warning" }
    else s1
  if data.wifiStrength < 50 then
    { s2 with log := dcAddLog s2.log ("Weak signal warning: " ++ toString data.wifiStrength ++ "%") "warning" }
  else s2

/-- drone-control.js updateTelemetry: return immediately, issuing no
request, when not connected; otherwise fetch /status and, on an ok
response, update the telemetry displays and run the critical checks. -/
def updateTelemetry (s : DCState) (r : DCTelemetryResult) : DCState × List Out :=
  if !s.isConnected then (s, [])
  else
    match r with
    | .ok data =>
        let s1 := { s with batteryText := toString data.battery
                           signalText := toString data.wifiStrength
                           heightText := toString data.height
                           tempText := toString data.temperature }
        (checkCriticalStatus s1 data, [Out.statusRequest])
    | .httpError => (s, [Out.statusRequest])
    | .networkError => (s, [Out.statusRequest])

/-- drone-control.js connect handler. -/
def dcOnConnect (s : DCState) : DCState × List Out :=
  ({ s with isConnected := true
            connectionStatusText := "Connected"
            connectionStatusColor := "#22c55e"
            log := dcAddLog s.log "Connected to drone server" "success" }, [])

/-- drone-control.js disconnect handler. -/
def dcOnDisconnect (s : DCState) : DCState × List Out :=
  ({ s with isConnected := false
            connectionStatusText := "Disconnected"
            connectionStatusColor := "#ef4444"
            log := dcAddLog s.log "Disconnected from drone server" "danger" }, [])

/-- The log recorder run from an empty container. -/
def runLog (msgs : List String) : List String :=
  msgs.foldl addLog []

/-- Feeding a sequence of pushed frames through the frame handler. -/
def runFrames (s : ClientState) (frames : List String) : ClientState :=
  frames.foldl (fun st f => (onVideoFrame st f).1) s

/-- An empty telemetry display. -/
def emptyDisplay : StatusDisplay :=
  { battery := "", height := "", temperature := "", flightTime := ""
    isFlying := "", wifiStrength := "", batteryColor := "" }

/-- A concrete disconnected, idle client state. -/
def sampleDisconnected : ClientState :=
  { socketConnected := false, isVideoActive := false, btnText := "Start Video"
    videoSrc := "", connStatusText := "Disconnected", log := []
    statusTimerRunning := false, pendingResizeDebounce := false
    pendingResizeRestart := false, display := emptyDisplay }

/-- A concrete connected client state with the video stream on and the
status timer running. -/
def sampleActive : ClientState :=
  { socketConnected := true, isVideoActive := true, btnText := "Stop Video"
    videoSrc := "", connStatusText := "Connected", log := []
    statusTimerRunning := true, pendingResizeDebounce := false
    pendingResizeRestart := false, display := emptyDisplay }

/-- The socket error handler: log the error and mark the connection
status as Error; the transport itself stays up. -/
def onSocketError (s : ClientState) (errMsg : String) : ClientState × List Out :=
  ({ s with log := addLog s.log ("Socket error: " ++ errMsg)
            connStatusText := "Error" }, [])

/-- A reachable Degraded state: after a successful connect, a socket
error marks the connection status Error while socket.connected stays
true. -/
def sampleDegraded : ClientState :=
  (onSocketError (onConnect sampleDisconnected).1 "timeout").1

/-- A disconnected client state whose periodic status timer is still
running (the page stayed visible across the drop). -/
def sampleTickingDisconnected : ClientState :=
  { sampleDisconnected with statusTimerRunning := true }

/-- An active client state with a resize debounce callback pending. -/
def sampleResizePending : ClientState :=
  { sampleActive with pendingResizeDebounce := true }

/-- A concrete disconnected drone-control.js state. -/
def sampleDCDisconnected : DCState :=
  { isConnected := false, isStreaming := false, log := [], videoFeedSrc := ""
    connectionStatusText := "Disconnected", connectionStatusColor := "#ef4444"
    startBtnDisabled := false, stopBtnDisabled := true, frameCount := 0
    lastFrameTime := 0, fpsText := "", batteryText := "", signalText := ""
    heightText := "", tempText := "" }

/-- A concrete connected drone-control.js state. -/
def sampleDCConnected : DCState :=
  { sampleDCDisconnected with isConnected := true
                              connectionStatusText := "Connected"
                              connectionStatusColor := "#22c55e" }

/-- Messages 0..100 for exercising the log ring. -/
def witnessMsgs : List String :=
  (List.range 101).map toString

/-- The advertised control label reads Stop Video exactly when the
internal stream-active flag is set. -/
def btnMatchesState (s : ClientState) : Prop :=
  s.btnText = "Stop Video" ↔ s.isVideoActive = true

theorem trimLog_eq_drop (l : List String) :
    trimLog l = l.drop (l.length - 100) := by
  induction l with
  | nil => rfl
  | cons x xs ih =>
      rw [trimLog]
      by_cases h : (x :: xs).length > 100
      · rw [if_pos h, ih]
        have h1 : 100 ≤ xs.length := by
          simp only [List.length_cons] at h; omega
        have h2 : (x :: xs).length - 100 = (xs.length - 100) + 1 := by
          simp only [List.length_cons]; omega
        rw [h2, List.drop_succ_cons]
      · rw [if_neg h]
        have h1 : (x :: xs).length - 100 = 0 := by
          simp only [List.length_cons] at h ⊢; omega
        rw [h1, List.drop_zero]

theorem addLog_eq_drop (l : List String) (m : String) :
    addLog l m = (l ++ [m]).drop ((l ++ [m]).length - 100) :=
  trimLog_eq_drop _

theorem addLog_length (l : List String) (m : String) :
    (addLog l m).length = min (l.length + 1) 100 := by
  rw [addLog_eq_drop, List.length_drop]
  simp only [List.length_append, List.length_singleton]
  omega

theorem drop_sub_cons (x : String) (l : List String) (h : 100 ≤ l.length) :
    (x :: l).drop ((x :: l).length - 100) = l.drop (l.length - 100) := by
  have h2 : (x :: l).length - 100 = (l.length - 100) + 1 := by
    simp only [List.length_cons]; omega
  rw [h2, List.drop_succ_cons]

theorem foldl_addLog_eq (msgs : List String) :
    ∀ l : List String, l.length ≤ 100 →
      msgs.foldl addLog l = (l ++ msgs).drop ((l ++ msgs).length - 100) := by
  induction msgs with
  | nil =>
      intro l hl
      have h1 : (l ++ []).length - 100 = 0 := by simp; omega
      rw [List.foldl_nil, h1, List.drop_zero, List.append_nil]
  | cons m ms ih =>
      intro l hl
      rw [List.foldl_cons]
      have hlen : (addLog l m).length ≤ 100 := by
        rw [addLog_length]; omega
      rw [ih (addLog l m) hlen]
      rcases Nat.lt_or_ge l.length 100 with h | h
      · have he : addLog l m = l ++ [m] := by
          rw [addLog_eq_drop]
          have h0 : (l ++ [m]).length - 100 = 0 := by simp; omega
          rw [h0, List.drop_zero]
        rw [he]
        simp [List.append_assoc]
      · have h100 : l.length = 100 := le_antisymm hl h
        cases l with
        | nil => simp at h100
        | cons y t =>
            have ht : t.length = 99 := by
              simp only [List.length_cons] at h100; omega
            have he : addLog (y :: t) m = t ++ [m] := by
              rw [addLog_eq_drop]
              have h1 : ((y :: t) ++ [m]).length - 100 = 1 := by simp [ht]
              rw [h1]
              simp
            rw [he]
            have hc : (y :: t) ++ m :: ms = y :: (t ++ [m] ++ ms) := by simp
            rw [hc, drop_sub_cons y (t ++ [m] ++ ms) (by simp [ht]; omega)]

theorem runLog_eq (msgs : List String) :
    runLog msgs = msgs.drop (msgs.length - 100) := by
  have h := foldl_addLog_eq msgs [] (by simp)
  simpa [runLog] using h

theorem mem_addLog (l : List String) (m : String) : m ∈ addLog l m := by
  rw [addLog_eq_drop]
  have hk : (l ++ [m]).length - 100 ≤ l.length := by simp
  rw [List.drop_append_of_le_length hk]
  simp

theorem runCommands_disconnected (cs : List String) :
    ∀ s : ClientState, s.socketConnected = false →
      (runCommands s cs).2 = [] ∧ (runCommands s cs).1.socketConnected = false := by
  induction cs with
  | nil => intro s h; exact ⟨rfl, h⟩
  | cons c cs ih =>
      intro s h
      have hstep : sendCommand s c =
          ({ s with log := addLog s.log "Error: Not connected to drone" }, []) := by
        simp [sendCommand, h]
      have hnext := ih { s with log := addLog s.log "Error: Not connected to drone" } h
      simp [runCommands, hstep]
      exact hnext

/-- Claim C1 (amended): dispatch is guarded only by the transport-down
flag, not by the whole connectivity state.  While the socket is
disconnected, dispatching any command forwards nothing to the transport,
only appends the rejection log entry and changes nothing else, never
queues the command, and this holds over arbitrarily long sequences of
attempted commands; the drone-control.js dispatcher rejects in the same
way.  But whenever the transport flag is up — which includes the
Degraded states whose connection status reads Error — both dispatchers
still forward the command. -/
theorem dispatch_rejected_while_disconnected
    (s : ClientState) (h : s.socketConnected = false) :
    (∀ command, sendCommand s command =
        ({ s with log := addLog s.log "Error: Not connected to drone" }, [])) ∧
    (∀ direction distance, sendMoveCommand s direction distance =
        ({ s with log := addLog s.log "Error: Not connected to drone" }, [])) ∧
    (∀ commands : List String, (runCommands s commands).2 = []) ∧
    (∀ t : DCState, t.isConnected = false → ∀ command r,
        sendDroneCommand t command r =
          ({ t with log := dcAddLog t.log "Cannot send command: Drone not connected" "warning" }, [])) ∧
    (∀ u : ClientState, u.socketConnected = true → ∀ command,
        (sendCommand u command).2 = [Out.droneCommand command none]) ∧
    (∀ u : DCState, u.isConnected = true → ∀ command r,
        (sendDroneCommand u command r).2 = [Out.droneCommand command none]) := by
  refine ⟨?_, ?_, ?_, ?_, ?_, ?_⟩
  · intro command; simp [sendCommand, h]
  · intro direction distance; simp [sendMoveCommand, h]
  · intro commands; exact (runCommands_disconnected commands s h).1
  · intro t ht command r; simp [sendDroneCommand, ht]
  · intro u hu command; simp [sendCommand, hu]
  · intro u hu command r; cases r <;> simp [sendDroneCommand, hu]

theorem dispatch_rejected_while_disconnected_witness :
    sampleDisconnected.socketConnected = false ∧
    (runCommands sampleDisconnected ["takeoff", "land", "up"]).2 = [] ∧
    sendDroneCommand sampleDCDisconnected "takeoff" DCResponse.ok =
      ({ sampleDCDisconnected with
           log := dcAddLog sampleDCDisconnected.log
                    "Cannot send command: Drone not connected" "warning" }, []) ∧
    (sendCommand sampleDegraded "takeoff").2 = [Out.droneCommand "takeoff" none] := by
  refine ⟨rfl, ?_, ?_, ?_⟩
  · exact (dispatch_rejected_while_disconnected sampleDisconnected rfl).2.2.1
      ["takeoff", "land", "up"]
  · exact (dispatch_rejected_while_disconnected sampleDisconnected rfl).2.2.2.1
      sampleDCDisconnected rfl "takeoff" DCResponse.ok
  · exact (dispatch_rejected_while_disconnected sampleDisconnected rfl).2.2.2.2.1
      sampleDegraded rfl "takeoff"

/-- Claim C1 counterexample: a Degraded state is reachable — after a
successful connect a socket error sets the connection status to Error
while the transport flag stays up — and in it the dispatcher still
forwards the command to the transport, with a sent log entry rather
than a rejection. -/
theorem degraded_dispatch_still_forwards :
    sampleDegraded.connStatusText = "Error" ∧
    sampleDegraded.socketConnected = true ∧
    (sendCommand sampleDegraded "takeoff").2 = [Out.droneCommand "takeoff" none] ∧
    (sendCommand sampleDegraded "takeoff").1.log =
      addLog sampleDegraded.log "Sending command: takeoff" :=
  ⟨rfl, rfl, rfl, rfl⟩

/-- Claim C2: over any sequence of more than 100 appends the recorder
ends up holding exactly the last 100 messages in insertion order, and
after every prefix of the sequence the recorder again holds exactly the
last up-to-100 messages, never exceeding the capacity. -/
theorem log_ring_keeps_last_hundred
    (msgs : List String) (h : 100 < msgs.length) :
    runLog msgs = msgs.drop (msgs.length - 100) ∧
    (runLog msgs).length = 100 ∧
    (∀ k, runLog (msgs.take k) = (msgs.take k).drop ((msgs.take k).length - 100)) ∧
    (∀ k, (runLog (msgs.take k)).length ≤ 100) := by
  refine ⟨runLog_eq msgs, ?_, fun k => runLog_eq _, fun k => ?_⟩
  · rw [runLog_eq, List.length_drop]; omega
  · rw [runLog_eq, List.length_drop]; omega

theorem log_ring_keeps_last_hundred_witness :
    100 < witnessMsgs.length ∧
    runLog witnessMsgs = witnessMsgs.drop (witnessMsgs.length - 100) ∧
    (runLog witnessMsgs).length = 100 := by
  have hl : 100 < witnessMsgs.length := by simp [witnessMsgs]
  exact ⟨hl, (log_ring_keeps_last_hundred witnessMsgs hl).1,
    (log_ring_keeps_last_hundred witnessMsgs hl).2.1⟩

theorem fetchStatus_out (s : ClientState) (r : FetchResult) :
    (fetchStatus s r).2 = [Out.statusRequest] := by
  cases r <;> rfl

theorem fetchStatus_isVideoActive (s : ClientState) (r : FetchResult) :
    (fetchStatus s r).1.isVideoActive = s.isVideoActive := by
  cases r <;> rfl

theorem fetchStatus_btnText (s : ClientState) (r : FetchResult) :
    (fetchStatus s r).1.btnText = s.btnText := by
  cases r <;> rfl

/-- Claim C3: a hidden event while the video stream is active turns the
stream off exactly once with exactly one stop intent, clears the frame
and cancels the poll schedule; a second hidden event emits nothing more;
the following visible event issues one immediate poll, restarts the
schedule, and leaves the video stream off. -/
theorem visibility_suspend_resume (s : ClientState) (h : s.isVideoActive = true) :
    (onHidden s).2 = [Out.stopVideo] ∧
    (onHidden s).1.isVideoActive = false ∧
    (onHidden s).1.videoSrc = "" ∧
    (onHidden s).1.statusTimerRunning = false ∧
    (onHidden (onHidden s).1).2 = [] ∧
    (∀ r, (onVisible (onHidden s).1 r).2 = [Out.statusRequest] ∧
          (onVisible (onHidden s).1 r).1.statusTimerRunning = true ∧
          (onVisible (onHidden s).1 r).1.isVideoActive = false) := by
  refine ⟨by simp [onHidden, h], by simp [onHidden, h], by simp [onHidden, h],
          by simp [onHidden, h], by simp [onHidden, h], ?_⟩
  intro r
  refine ⟨?_, rfl, ?_⟩
  · show (fetchStatus (onHidden s).1 r).2 = [Out.statusRequest]
    exact fetchStatus_out _ r
  · show (fetchStatus (onHidden s).1 r).1.isVideoActive = false
    rw [fetchStatus_isVideoActive]
    simp [onHidden, h]

theorem visibility_suspend_resume_witness :
    (onHidden sampleActive).2 = [Out.stopVideo] ∧
    (onHidden sampleActive).1.statusTimerRunning = false ∧
    (onVisible (onHidden sampleActive).1 (FetchResult.httpError "Failed to fetch status")).1.isVideoActive = false := by
  refine ⟨(visibility_suspend_resume sampleActive rfl).1,
    (visibility_suspend_resume sampleActive rfl).2.2.2.1,
    ((visibility_suspend_resume sampleActive rfl).2.2.2.2.2
      (FetchResult.httpError "Failed to fetch status")).2.2⟩

/-- Claim C4: the disconnect handler forces the video state off from any
state, clears the frame, relabels the button, appends the disconnect log
entry, sends nothing over the down channel, and a later successful
reconnect still leaves the video state off. -/
theorem disconnect_forces_inactive (s : ClientState) :
    onDisconnect s =
      ({ s with socketConnected := false
                connStatusText := "Disconnected"
                log := addLog s.log "Disconnected from drone control system"
                isVideoActive := false
                videoSrc := ""
                btnText := "Start Video" }, []) ∧
    "Disconnected from drone control system" ∈ (onDisconnect s).1.log ∧
    (onConnect (onDisconnect s).1).1.isVideoActive = false ∧
    (onConnect (onDisconnect s).1).1.socketConnected = true := by
  exact ⟨rfl, mem_addLog s.log _, rfl, rfl⟩

/-- Claim C5 (amended): in drone-control.js a scheduler tick while not
connected issues no telemetry request and leaves the state unchanged; in
script.js a tick of a live timer always issues the request (regardless
of connectivity), a cleared timer produces no request, and only the
hidden branch of the visibility handler clears the timer. -/
theorem telemetry_tick_guard (t : DCState) (h : t.isConnected = false) :
    (∀ r, updateTelemetry t r = (t, [])) ∧
    (∀ (s : ClientState) (r : FetchResult), s.statusTimerRunning = true →
        (statusTick s r).2 = [Out.statusRequest]) ∧
    (∀ (s : ClientState) (r : FetchResult), s.statusTimerRunning = false →
        statusTick s r = (s, [])) ∧
    (∀ s : ClientState, (onHidden s).1.statusTimerRunning = false) := by
  refine ⟨?_, ?_, ?_, ?_⟩
  · intro r; simp [updateTelemetry, h]
  · intro s r hs; simp [statusTick, hs, fetchStatus_out]
  · intro s r hs; simp [statusTick, hs]
  · intro s; rw [onHidden]; split <;> rfl

theorem telemetry_tick_guard_witness :
    sampleDCDisconnected.isConnected = false ∧
    updateTelemetry sampleDCDisconnected DCTelemetryResult.httpError =
      (sampleDCDisconnected, []) :=
  ⟨rfl, (telemetry_tick_guard sampleDCDisconnected rfl).1 DCTelemetryResult.httpError⟩

/-- Claim C5 counterexample: with the socket disconnected but the page
visible, the script.js schedule keeps running and its next tick still
issues a telemetry request. -/
theorem tick_disconnected_still_requests :
    sampleTickingDisconnected.socketConnected = false ∧
    sampleTickingDisconnected.statusTimerRunning = true ∧
    (statusTick sampleTickingDisconnected (FetchResult.networkError "Failed to fetch")).2
      = [Out.statusRequest] :=
  ⟨rfl, rfl, rfl⟩

theorem firedDebounces_tight (ts : List Nat) (h1 : tightBurst ts = true)
    (h2 : ts ≠ []) : firedDebounces ts = 1 := by
  induction ts with
  | nil => exact absurd rfl h2
  | cons a rest ih =>
      cases rest with
      | nil => rfl
      | cons b rest' =>
          rw [tightBurst] at h1
          simp only [Bool.and_eq_true, decide_eq_true_eq] at h1
          rw [firedDebounces, if_pos h1.1.2, ih h1.2 (by simp)]

/-- Claim C6: over any burst of resize events with consecutive gaps
under 250 ms exactly one debounce callback survives, and that single
cycle clears the frame at most once (only if the video stream is on,
also arming the restart callback) and re-issues a single start intent
iff the video stream is still on at restart time. -/
theorem resize_burst_one_cycle (ts : List Nat) (h1 : tightBurst ts = true)
    (h2 : ts ≠ []) :
    firedDebounces ts = 1 ∧
    (∀ s : ClientState, s.isVideoActive = true →
        fireResizeDebounce s =
          ({ s with pendingResizeDebounce := false
                    videoSrc := ""
                    pendingResizeRestart := true }, [])) ∧
    (∀ s : ClientState, s.isVideoActive = false →
        fireResizeDebounce s = ({ s with pendingResizeDebounce := false }, [])) ∧
    (∀ s : ClientState,
        (fireResizeRestart s).2 = if s.isVideoActive then [Out.startVideo] else []) := by
  refine ⟨firedDebounces_tight ts h1 h2, ?_, ?_, ?_⟩
  · intro s hs; simp [fireResizeDebounce, hs]
  · intro s hs; simp [fireResizeDebounce, hs]
  · intro s; cases hs : s.isVideoActive <;> simp [fireResizeRestart, hs]

theorem resize_burst_one_cycle_witness :
    tightBurst [0, 100, 200] = true ∧ firedDebounces [0, 100, 200] = 1 :=
  ⟨by decide, (resize_burst_one_cycle [0, 100, 200] (by decide) (by decide)).1⟩

theorem onVideoFrame_isVideoActive (s : ClientState) (f : String) :
    (onVideoFrame s f).1.isVideoActive = s.isVideoActive := by
  rw [onVideoFrame]; split <;> rfl

theorem runFrames_cons (s : ClientState) (f : String) (fs : List String) :
    runFrames s (f :: fs) = runFrames (onVideoFrame s f).1 fs := rfl

theorem runFrames_isVideoActive (frames : List String) :
    ∀ s : ClientState, (runFrames s frames).isVideoActive = s.isVideoActive := by
  induction frames with
  | nil => intro s; rfl
  | cons f fs ih => intro s; rw [runFrames_cons, ih, onVideoFrame_isVideoActive]

theorem runFrames_append (s : ClientState) (fs : List String) (f : String) :
    runFrames s (fs ++ [f]) = (onVideoFrame (runFrames s fs) f).1 := by
  simp [runFrames, List.foldl_append]

theorem updateFPSCounter_videoFeedSrc (s : DCState) (now : Nat) :
    (updateFPSCounter s now).videoFeedSrc = s.videoFeedSrc := by
  rw [updateFPSCounter]
  split <;> rfl

/-- Claim C7: a pushed frame is rendered only while the stream is on: in
any other state it is ignored with no state change; while on, every
received frame overwrites the rendered frame, so after a sequence of
frames the last received one is displayed; the drone-control.js handler
behaves the same for non-empty frame payloads. -/
theorem frame_render_guard (s : ClientState) :
    (s.isVideoActive = false → ∀ frame, onVideoFrame s frame = (s, [])) ∧
    (s.isVideoActive = true → ∀ frame,
        onVideoFrame s frame =
          ({ s with videoSrc := "data:image/jpeg;base64," ++ frame }, [])) ∧
    (s.isVideoActive = true → ∀ (frames : List String) (f : String),
        (runFrames s (frames ++ [f])).videoSrc = "data:image/jpeg;base64," ++ f) ∧
    (∀ (t : DCState) (frame : String) (now : Nat), t.isStreaming = false →
        dcVideoFrame t frame now = (t, [])) ∧
    (∀ (t : DCState) (frame : String) (now : Nat),
        t.isStreaming = true → frame ≠ "" →
        (dcVideoFrame t frame now).1.videoFeedSrc = "data:image/jpeg;base64," ++ frame) := by
  refine ⟨?_, ?_, ?_, ?_, ?_⟩
  · intro h frame; simp [onVideoFrame, h]
  · intro h frame; simp [onVideoFrame, h]
  · intro h frames f
    rw [runFrames_append]
    have ha : (runFrames s frames).isVideoActive = true := by
      rw [runFrames_isVideoActive]; exact h
    simp [onVideoFrame, ha]
  · intro t frame now h; simp [dcVideoFrame, h]
  · intro t frame now h hf
    have hc : (t.isStreaming && (frame != "")) = true := by simp [h, hf]
    simp only [dcVideoFrame, hc, if_true]
    exact updateFPSCounter_videoFeedSrc _ now

theorem frame_render_guard_witness :
    onVideoFrame sampleDisconnected "abc" = (sampleDisconnected, []) ∧
    (runFrames sampleActive (["f1", "f2"] ++ ["f3"])).videoSrc
      = "data:image/jpeg;base64,f3" :=
  ⟨(frame_render_guard sampleDisconnected).1 rfl "abc",
   (frame_render_guard sampleActive).2.2.1 rfl ["f1", "f2"] "f3"⟩

/-- Claim C8 (amended): drone-control.js emits the start intent only when
connected, rejecting a toggle-on with just a warning log entry while not
connected; the script.js toggle listener, by contrast, emits start on
every toggle-on regardless of connectivity. -/
theorem video_start_guard (t : DCState) (h : t.isConnected = false) :
    startVideoStream t =
      ({ t with log := dcAddLog t.log "Cannot start stream: Drone not connected" "warning" }, []) ∧
    (∀ u : DCState, u.isConnected = true →
        (startVideoStream u).2 = [Out.startVideo] ∧
        (startVideoStream u).1.isStreaming = true) ∧
    (∀ s : ClientState, s.isVideoActive = false →
        (toggleVideo s).2 = [Out.startVideo]) := by
  refine ⟨by simp [startVideoStream, h], ?_, ?_⟩
  · intro u hu
    constructor <;> simp [startVideoStream, hu, updateStreamControls]
  · intro s hs; simp [toggleVideo, hs]

theorem video_start_guard_witness :
    startVideoStream sampleDCDisconnected =
      ({ sampleDCDisconnected with
           log := dcAddLog sampleDCDisconnected.log
                    "Cannot start stream: Drone not connected" "warning" }, []) :=
  (video_start_guard sampleDCDisconnected rfl).1

/-- Claim C8 counterexample: in script.js a toggle-on while the socket is
disconnected still emits the start intent. -/
theorem toggle_on_disconnected_emits_start :
    sampleDisconnected.socketConnected = false ∧
    sampleDisconnected.isVideoActive = false ∧
    (toggleVideo sampleDisconnected).2 = [Out.startVideo] :=
  ⟨rfl, rfl, rfl⟩

/-- Claim C9 (amended): when the video stream is on at teardown, the
unload handler emits the stop intent strictly before closing the
connection, and cancels the telemetry poll timer; the pending resize
debounce and restart timers are left untouched. -/
theorem unload_stop_before_close (s : ClientState) (h : s.isVideoActive = true) :
    (onUnload s).2 = [Out.stopVideo, Out.closeConnection] ∧
    (onUnload s).1.statusTimerRunning = false ∧
    (onUnload s).1.socketConnected = false ∧
    (onUnload s).1.pendingResizeDebounce = s.pendingResizeDebounce ∧
    (onUnload s).1.pendingResizeRestart = s.pendingResizeRestart ∧
    (∀ l1 l2, (onUnload s).2 = l1 ++ Out.closeConnection :: l2 →
        Out.stopVideo ∉ l2) := by
  have houts : (onUnload s).2 = [Out.stopVideo, Out.closeConnection] := by
    simp [onUnload, h]
  refine ⟨houts, rfl, rfl, rfl, rfl, ?_⟩
  intro l1 l2 heq
  rw [houts] at heq
  cases l1 with
  | nil => simp at heq
  | cons a l1' =>
      cases l1' with
      | nil =>
          simp at heq
          simp [heq.2]
      | cons b l1'' => simp at heq

theorem unload_stop_before_close_witness :
    (onUnload sampleActive).2 = [Out.stopVideo, Out.closeConnection] :=
  (unload_stop_before_close sampleActive rfl).1

/-- Claim C9 counterexample: teardown does not cancel a pending resize
debounce timer, so not all timers are cancelled as part of teardown. -/
theorem unload_keeps_resize_timer :
    sampleResizePending.isVideoActive = true ∧
    sampleResizePending.pendingResizeDebounce = true ∧
    (onUnload sampleResizePending).1.pendingResizeDebounce = true :=
  ⟨rfl, rfl, rfl⟩

/-- Claim C10: the toggle click, both visibility branches and the
disconnect handler each preserve the invariant that the control label
reads Stop Video exactly when the stream-active flag is set. -/
theorem control_label_matches_state (s : ClientState) (h : btnMatchesState s) :
    btnMatchesState (toggleVideo s).1 ∧
    btnMatchesState (onHidden s).1 ∧
    (∀ r, btnMatchesState (onVisible s r).1) ∧
    btnMatchesState (onDisconnect s).1 := by
  refine ⟨?_, ?_, ?_, ?_⟩
  · cases hv : s.isVideoActive <;> simp [toggleVideo, hv, btnMatchesState]
  · cases hv : s.isVideoActive
    · have hb : s.btnText ≠ "Stop Video" := by
        intro hb
        have := h.mp hb
        rw [hv] at this
        exact Bool.false_ne_true this
      simp [onHidden, hv, btnMatchesState, hb]
    · simp [onHidden, hv, btnMatchesState]
  · intro r
    show (fetchStatus s r).1.btnText = "Stop Video" ↔
      (fetchStatus s r).1.isVideoActive = true
    rw [fetchStatus_btnText, fetchStatus_isVideoActive]
    exact h
  · simp [onDisconnect, btnMatchesState]

theorem control_label_matches_state_witness :
    btnMatchesState sampleDisconnected ∧
    btnMatchesState (toggleVideo sampleDisconnected).1 := by
  have h : btnMatchesState sampleDisconnected := by
    simp [btnMatchesState, sampleDisconnected]
  exact ⟨h, (control_label_matches_state sampleDisconnected h).1⟩

end Drone
